import Mathlib

/-!
Shallow embedding of the snake game simulation from the_snake.py.

Coordinates are pixel coordinates (Int), exactly as in the source; the
grid cell (cx, cy) of the spec corresponds to the pixel pair
(cx * GRID_SIZE, cy * GRID_SIZE).  Randomness is made explicit: the
direction chosen by random.choice in Snake.reset becomes a parameter
of the operations that may reset, and the stream of cells drawn by
random.randint in Apple.randomize_position becomes a list of candidate
cells, with the unbounded retry loop returning none when the stream of
draws is exhausted without finding a free cell.
-/

namespace TheSnake

/-- SCREEN_WIDTH from the source (640 pixels). -/
def SCREEN_WIDTH : Int := 640

/-- SCREEN_HEIGHT from the source (480 pixels). -/
def SCREEN_HEIGHT : Int := 480

/-- GRID_SIZE from the source (20 pixels per cell). -/
def GRID_SIZE : Int := 20

/-- GRID_WIDTH = SCREEN_WIDTH // GRID_SIZE = 32 cells. -/
def GRID_WIDTH : Int := SCREEN_WIDTH / GRID_SIZE

/-- GRID_HEIGHT = SCREEN_HEIGHT // GRID_SIZE = 24 cells. -/
def GRID_HEIGHT : Int := SCREEN_HEIGHT / GRID_SIZE

/-- Direction constant UP = (0, -1). -/
def UP : Int × Int := (0, -1)

/-- Direction constant DOWN = (0, 1). -/
def DOWN : Int × Int := (0, 1)

/-- Direction constant LEFT = (-1, 0). -/
def LEFT : Int × Int := (-1, 0)

/-- Direction constant RIGHT = (1, 0). -/
def RIGHT : Int × Int := (1, 0)

/-- The four directions random.choice picks from in Snake.reset. -/
def directions : List (Int × Int) := [UP, DOWN, LEFT, RIGHT]

/-- The grid center used by Snake.init and Snake.reset:
(SCREEN_WIDTH // 2 // GRID_SIZE * GRID_SIZE,
 SCREEN_HEIGHT // 2 // GRID_SIZE * GRID_SIZE) = (320, 240). -/
def center : Int × Int :=
  (SCREEN_WIDTH / 2 / GRID_SIZE * GRID_SIZE,
   SCREEN_HEIGHT / 2 / GRID_SIZE * GRID_SIZE)

/-- The x component of the wrap used when computing the new head in
Snake.move: (cur_x + dx * GRID_SIZE) % SCREEN_WIDTH.  Int emod, like
the Python % operator, yields a non-negative result for a positive
modulus. -/
def wrapX (x : Int) : Int := x % SCREEN_WIDTH

/-- The y component of the wrap used when computing the new head in
Snake.move: (cur_y + dy * GRID_SIZE) % SCREEN_HEIGHT. -/
def wrapY (y : Int) : Int := y % SCREEN_HEIGHT

/-- The mutable state of the Snake class: length (the target length),
positions (the segment cells, head first), direction, next_direction
(the pending direction set by handle_keys) and last (the vacated tail
cell of the most recent move, used by draw to erase it). -/
structure Snake where
  length : Nat
  positions : List (Int × Int)
  direction : Int × Int
  next_direction : Option (Int × Int)
  last : Option (Int × Int)
deriving DecidableEq, Repr

/-- Snake.init from the source: length 1, single segment at the grid
center, direction RIGHT, no pending direction, no vacated cell. -/
def Snake.init : Snake :=
  { length := 1
    positions := [center]
    direction := RIGHT
    next_direction := none
    last := none }

/-- Snake.get_head_position: self.positions[0].  The segment list is
never empty in any reachable state (proved below), so the default
value of headD is never consulted there. -/
def Snake.get_head_position (s : Snake) : Int × Int :=
  s.positions.headD (0, 0)

/-- Snake.update_direction: if a pending direction is set and is not the
exact opposite of the current direction, it becomes the current
direction; in either case the pending direction is cleared.  A Python
direction tuple is always truthy, so the truthiness test on
self.next_direction is exactly the test for some. -/
def Snake.update_direction (s : Snake) : Snake :=
  match s.next_direction with
  | none => s
  | some nd =>
    if nd = (-s.direction.1, -s.direction.2) then
      { s with next_direction := none }
    else
      { s with direction := nd, next_direction := none }

/-- The new head cell Snake.move computes from the current head and
direction, with wrap-around on both axes. -/
def Snake.new_head (s : Snake) : Int × Int :=
  (wrapX (s.get_head_position.1 + s.direction.1 * GRID_SIZE),
   wrapY (s.get_head_position.2 + s.direction.2 * GRID_SIZE))

/-- The self-collision test of Snake.move: new_head in positions[2:]. -/
def Snake.moveCollides (s : Snake) : Bool :=
  decide (s.new_head ∈ s.positions.drop 2)

/-- Snake.reset from the source, with the direction drawn by
random.choice passed explicitly: length 1, single segment at the grid
center, pending direction and vacated cell cleared. -/
def Snake.reset (_s : Snake) (d : Int × Int) : Snake :=
  { length := 1
    positions := [center]
    direction := d
    next_direction := none
    last := none }

/-- Snake.move from the source, with the direction a possible reset
would draw passed explicitly as rd.  On self-collision the snake
resets and nothing else is mutated.  Otherwise the new head is
inserted at the front; if the list then exceeds the target length the
tail is popped and recorded in last, else last is cleared. -/
def Snake.move (s : Snake) (rd : Int × Int) : Snake :=
  if s.moveCollides then
    s.reset rd
  else
    let positions := s.new_head :: s.positions
    if positions.length > s.length then
      { s with positions := positions.dropLast, last := positions.getLast? }
    else
      { s with positions := positions, last := none }

/-- One arrow-key press handled by handle_keys: the assignment
snake_obj.next_direction = DIR, performed unconditionally.  This is
the request_direction operation of the spec as the source implements
it. -/
def Snake.request_direction (s : Snake) (d : Int × Int) : Snake :=
  { s with next_direction := some d }

/-- handle_keys from the source, restricted to the arrow-key events of
one tick (QUIT terminates the process and non-arrow keys are ignored,
so neither mutates the snake): each key press in event order
overwrites next_direction. -/
def handle_keys (keys : List (Int × Int)) (s : Snake) : Snake :=
  keys.foldl Snake.request_direction s

/-- Apple.randomize_position, with the stream of cells drawn by
random.randint made an explicit candidate list: the loop takes the
first drawn cell not in occupied; none models the loop never finding a
free cell among the given draws. -/
def randomize_position (cands : List (Int × Int))
    (occupied : List (Int × Int)) : Option (Int × Int) :=
  cands.find? (fun p => decide (p ∉ occupied))

/-- Apple.init from the source: it calls randomize_position with no
occupied argument, which defaults to the empty list, so the initial
draw avoids nothing. -/
def Apple.init_position (cands : List (Int × Int)) : Option (Int × Int) :=
  randomize_position cands []

/-- The state owned by the main loop: one snake and one apple position. -/
structure GameState where
  snake : Snake
  apple : Int × Int
deriving DecidableEq, Repr

/-- One iteration of the while loop in main, rendering omitted:
handle_keys, update_direction, move, then the food check: if the head
equals the apple position, length is incremented and the apple is
relocated with occupied = snake.positions.  keys are the arrow-key
events of the tick, rd the direction a reset would draw, cands the
cell draws a relocation would use; none models a relocation whose
draws never find a free cell. -/
def tick (keys : List (Int × Int)) (rd : Int × Int)
    (cands : List (Int × Int)) (g : GameState) : Option GameState :=
  let s := ((handle_keys keys g.snake).update_direction).move rd
  if s.get_head_position = g.apple then
    match randomize_position cands s.positions with
    | some p => some ⟨{ s with length := s.length + 1 }, p⟩
    | none => none
  else
    some ⟨s, g.apple⟩

/-- The game states reachable by main: the initial state pairs the
freshly constructed snake with any apple position the initial draw may
produce, and each tick with any inputs and random draws steps to the
next state. -/
inductive Reachable : GameState → Prop
  | start (apple : Int × Int) : Reachable ⟨Snake.init, apple⟩
  | step {g g' : GameState} (keys : List (Int × Int)) (rd : Int × Int)
      (cands : List (Int × Int)) :
      Reachable g → tick keys rd cands g = some g' → Reachable g'

/-- A cell is grid-aligned and on screen: both pixel coordinates are
multiples of GRID_SIZE and lie in [0, SCREEN_WIDTH) respectively
[0, SCREEN_HEIGHT). -/
def aligned (p : Int × Int) : Prop :=
  p.1 % GRID_SIZE = 0 ∧ p.2 % GRID_SIZE = 0 ∧
  0 ≤ p.1 ∧ p.1 < SCREEN_WIDTH ∧ 0 ≤ p.2 ∧ p.2 < SCREEN_HEIGHT

instance (p : Int × Int) : Decidable (aligned p) := by
  unfold aligned
  infer_instance

/-- The structural invariant of the snake at the start of a tick: the
segment list is nonempty, at most length segments are held, and at
most one growth request is outstanding. -/
def snakeInv (s : Snake) : Prop :=
  s.positions ≠ [] ∧
  s.positions.length ≤ s.length ∧
  s.length ≤ s.positions.length + 1

/- ### Helper lemmas -/

theorem randomize_not_mem {cands occupied : List (Int × Int)}
    {p : Int × Int} (h : randomize_position cands occupied = some p) :
    p ∉ occupied := by
  have hp := List.find?_some h
  exact of_decide_eq_true hp

theorem handle_keys_positions (keys : List (Int × Int)) (s : Snake) :
    (handle_keys keys s).positions = s.positions ∧
    (handle_keys keys s).length = s.length := by
  induction keys generalizing s with
  | nil => exact ⟨rfl, rfl⟩
  | cons k ks ih => exact ih (s.request_direction k)

theorem update_direction_positions (s : Snake) :
    s.update_direction.positions = s.positions ∧
    s.update_direction.length = s.length := by
  unfold Snake.update_direction
  cases s.next_direction with
  | none => exact ⟨rfl, rfl⟩
  | some nd =>
    by_cases h : nd = (-s.direction.1, -s.direction.2) <;> simp [h]

theorem move_length_eq (s : Snake) (rd : Int × Int)
    (h1 : s.positions.length ≤ s.length)
    (h2 : s.length ≤ s.positions.length + 1) :
    (s.move rd).positions.length = (s.move rd).length := by
  unfold Snake.move
  split
  · simp [Snake.reset]
  · dsimp only
    split
    · next h =>
      dsimp only
      simp only [List.length_dropLast, List.length_cons] at *
      omega
    · next h =>
      dsimp only
      simp only [List.length_cons] at *
      omega

theorem move_positions_ne_nil (s : Snake) (rd : Int × Int)
    (h : s.positions ≠ []) : (s.move rd).positions ≠ [] := by
  unfold Snake.move
  split
  · simp [Snake.reset]
  · dsimp only
    split
    · next hgt =>
      dsimp only
      have hpos : 0 < s.positions.length := List.length_pos.mpr h
      apply List.ne_nil_of_length_pos
      simp only [List.length_dropLast, List.length_cons]
      omega
    · simp

theorem get_head_mem (s : Snake) (h : s.positions ≠ []) :
    s.get_head_position ∈ s.positions := by
  unfold Snake.get_head_position
  obtain ⟨a, l, hal⟩ := List.exists_cons_of_ne_nil h
  rw [hal]
  simp

theorem reachable_inv {g : GameState} (h : Reachable g) :
    snakeInv g.snake := by
  induction h with
  | start apple => refine ⟨by simp [Snake.init], by simp [Snake.init], by simp [Snake.init]⟩
  | step keys rd cands hr htick ih =>
    rename_i g g'
    obtain ⟨hne, hle, hge⟩ := ih
    have hk := handle_keys_positions keys g.snake
    have hu := update_direction_positions (handle_keys keys g.snake)
    set s0 := (handle_keys keys g.snake).update_direction with hs0
    have hne0 : s0.positions ≠ [] := by rw [hu.1, hk.1]; exact hne
    have hle0 : s0.positions.length ≤ s0.length := by
      rw [hu.1, hk.1, hu.2, hk.2]; exact hle
    have hge0 : s0.length ≤ s0.positions.length + 1 := by
      rw [hu.1, hk.1, hu.2, hk.2]; exact hge
    have hmlen := move_length_eq s0 rd hle0 hge0
    have hmne := move_positions_ne_nil s0 rd hne0
    unfold tick at htick
    rw [← hs0] at htick
    set m := s0.move rd with hm
    by_cases hhead : m.get_head_position = g.apple
    · simp only [hhead, if_pos] at htick
      cases hfind : randomize_position cands m.positions with
      | none => rw [hfind] at htick; simp at htick
      | some p =>
        rw [hfind] at htick
        simp only [Option.some.injEq] at htick
        subst htick
        have hsi : snakeInv { m with length := m.length + 1 } :=
          ⟨hmne, by dsimp only; omega, by dsimp only; omega⟩
        exact hsi
    · simp only [hhead, if_neg, not_false_iff, Option.some.injEq] at htick
      subst htick
      have hsi : snakeInv m := ⟨hmne, by omega, by omega⟩
      exact hsi

/- ### Claim C4 -/

/-- Claim C4: for every snake with at least 4 segments whose next move
would place the new head on a cell equal to the third segment or any
later one, move detects the collision and resets: afterwards the
target length is 1, the segment list is exactly the single grid-center
cell, and the new head is not inserted (the whole result is the reset
state). -/
theorem C4_self_collision_resets (s : Snake) (rd : Int × Int)
    (_hlen : 4 ≤ s.positions.length)
    (hmem : s.new_head ∈ s.positions.drop 2) :
    s.move rd = s.reset rd ∧ (s.move rd).length = 1 ∧
    (s.move rd).positions = [center] := by
  have hc : s.moveCollides = true := decide_eq_true hmem
  simp [Snake.move, hc, Snake.reset]

/-- Witness for C4: a five-segment snake curled so that moving DOWN
lands the head on its fourth segment. -/
theorem C4_self_collision_resets_witness :
    4 ≤ (Snake.mk 5 [(320, 240), (340, 240), (340, 260), (320, 260),
      (300, 260)] DOWN none none).positions.length ∧
    (Snake.mk 5 [(320, 240), (340, 240), (340, 260), (320, 260),
      (300, 260)] DOWN none none).new_head ∈
      (Snake.mk 5 [(320, 240), (340, 240), (340, 260), (320, 260),
        (300, 260)] DOWN none none).positions.drop 2 ∧
    ((Snake.mk 5 [(320, 240), (340, 240), (340, 260), (320, 260),
        (300, 260)] DOWN none none).move UP =
      (Snake.mk 5 [(320, 240), (340, 240), (340, 260), (320, 260),
        (300, 260)] DOWN none none).reset UP ∧
      ((Snake.mk 5 [(320, 240), (340, 240), (340, 260), (320, 260),
        (300, 260)] DOWN none none).move UP).length = 1 ∧
      ((Snake.mk 5 [(320, 240), (340, 240), (340, 260), (320, 260),
        (300, 260)] DOWN none none).move UP).positions = [center]) :=
  ⟨by decide, by decide,
    C4_self_collision_resets _ UP (by decide) (by decide)⟩

/- ### Claim C6 -/

/-- Claim C6: if the only direction requested before the next advance
is the exact opposite of the current direction, the direction on that
advance is unchanged: after handle_keys with that single key and
update_direction, the snake still has its old direction. -/
theorem C6_opposite_request_keeps_direction (s : Snake) (d : Int × Int)
    (hd : d = (-s.direction.1, -s.direction.2)) :
    ((handle_keys [d] s).update_direction).direction = s.direction := by
  subst hd
  simp [handle_keys, Snake.request_direction, Snake.update_direction]

/-- Witness for C6: the initial snake moves RIGHT; requesting only LEFT
leaves the direction RIGHT. -/
theorem C6_opposite_request_keeps_direction_witness :
    LEFT = (-Snake.init.direction.1, -Snake.init.direction.2) ∧
    ((handle_keys [LEFT] Snake.init).update_direction).direction =
      Snake.init.direction :=
  ⟨by decide, C6_opposite_request_keeps_direction Snake.init LEFT (by decide)⟩

/- ### Claim C8 -/

/-- Claim C8: the wrap used for the new head maps every integer pixel
coordinate into [0, SCREEN_WIDTH) respectively [0, SCREEN_HEIGHT)
with a non-negative modulo result; and a length-1 snake at pixel cell
(620, 240) (grid cell (31, 12)) moving RIGHT on the 32-cell-wide grid
has head (0, 240) (grid cell (0, 12)) after one move. -/
theorem C8_wrap_range :
    (∀ x : Int, 0 ≤ wrapX x ∧ wrapX x < SCREEN_WIDTH) ∧
    (∀ y : Int, 0 ≤ wrapY y ∧ wrapY y < SCREEN_HEIGHT) ∧
    (∀ rd : Int × Int,
      ((Snake.mk 1 [(620, 240)] RIGHT none none).move rd).get_head_position
        = (0, 240)) := by
  refine ⟨fun x => ⟨?_, ?_⟩, fun y => ⟨?_, ?_⟩, fun rd => rfl⟩
  · exact Int.emod_nonneg x (by norm_num [SCREEN_WIDTH])
  · exact Int.emod_lt_of_pos x (by norm_num [SCREEN_WIDTH])
  · exact Int.emod_nonneg y (by norm_num [SCREEN_HEIGHT])
  · exact Int.emod_lt_of_pos y (by norm_num [SCREEN_HEIGHT])

/- ### Claim C9 -/

/-- Claim C9: from the initial state (length 1 at the grid center
(320, 240), i.e. grid cell (16, 12), direction RIGHT), one tick of
movement with no input yields head (340, 240) (grid cell (17, 12)),
target length still 1, one segment, and the vacated cell reported as
the old head (320, 240) (grid cell (16, 12)). -/
theorem C9_first_move (rd : Int × Int) :
    (((handle_keys [] Snake.init).update_direction).move rd).get_head_position
      = (340, 240) ∧
    (((handle_keys [] Snake.init).update_direction).move rd).length = 1 ∧
    (((handle_keys [] Snake.init).update_direction).move rd).positions
      = [(340, 240)] ∧
    (((handle_keys [] Snake.init).update_direction).move rd).last
      = some (320, 240) :=
  ⟨rfl, rfl, rfl, rfl⟩

/- ### Claim C3 -/

/-- Counterexample to claim C3: with current direction RIGHT and an
earlier pending request UP, requesting LEFT (the exact opposite of
RIGHT) does change the pending direction: the earlier UP request does
not survive.  The opposite-direction request is not dropped at request
time. -/
theorem C3_counterexample :
    LEFT = (-(Snake.mk 1 [(320, 240)] RIGHT (some UP) none).direction.1,
            -(Snake.mk 1 [(320, 240)] RIGHT (some UP) none).direction.2) ∧
    ((Snake.mk 1 [(320, 240)] RIGHT (some UP) none).request_direction
        LEFT).next_direction ≠
      (Snake.mk 1 [(320, 240)] RIGHT (some UP) none).next_direction := by
  decide

/-- Claim C3 as amended: request_direction (the per-key assignment in
handle_keys) always sets the pending direction to the requested one,
even when it is the exact opposite of the current direction; a later
request therefore always overwrites an earlier pending request.  The
opposite-direction guard acts only later, in update_direction, where
an opposite pending direction is dropped (direction unchanged) and
the pending slot cleared. -/
theorem C3_request_always_overwrites (s : Snake) (d : Int × Int) :
    (s.request_direction d).next_direction = some d ∧
    (d = (-s.direction.1, -s.direction.2) →
      ((s.request_direction d).update_direction).direction = s.direction ∧
      ((s.request_direction d).update_direction).next_direction = none) := by
  refine ⟨rfl, fun hd => ?_⟩
  subst hd
  simp [Snake.request_direction, Snake.update_direction]

/-- Witness for the amended C3 at the initial snake and the request
LEFT, the opposite of its direction RIGHT. -/
theorem C3_request_always_overwrites_witness :
    (Snake.init.request_direction LEFT).next_direction = some LEFT ∧
    (LEFT = (-Snake.init.direction.1, -Snake.init.direction.2) ∧
      ((Snake.init.request_direction LEFT).update_direction).direction =
        Snake.init.direction ∧
      ((Snake.init.request_direction LEFT).update_direction).next_direction =
        none) :=
  ⟨(C3_request_always_overwrites Snake.init LEFT).1,
    by decide,
    (C3_request_always_overwrites Snake.init LEFT).2 (by decide)⟩

/- ### Claim C2 -/

/-- Counterexample to claim C2: the initial placement performed by
Apple.init calls randomize_position with no occupied list, so a draw
of the grid center is accepted although the freshly created snake
occupies exactly that cell. -/
theorem C2_counterexample :
    Apple.init_position [(320, 240)] = some (320, 240) ∧
    (320, 240) ∈ Snake.init.positions := by
  decide

/-- Claim C2 as amended: whenever randomize_position succeeds, the
resulting cell is not in the occupied list it was given; the in-game
relocations pass the segment list of the snake, so a relocated apple
never lands on the snake, but the initial placement passes no
occupied list and may coincide with a snake segment. -/
theorem C2_relocation_avoids_occupied (cands occupied : List (Int × Int))
    (p : Int × Int) (h : randomize_position cands occupied = some p) :
    p ∉ occupied :=
  randomize_not_mem h

/-- Witness for the amended C2: a draw list starting at the origin and
an occupied list holding only the grid center. -/
theorem C2_relocation_avoids_occupied_witness :
    randomize_position [(0, 0)] [(320, 240)] = some (0, 0) ∧
    ((0 : Int), (0 : Int)) ∉ [((320 : Int), (240 : Int))] :=
  ⟨by decide, C2_relocation_avoids_occupied [(0, 0)] [(320, 240)] (0, 0)
    (by decide)⟩

/- ### Claim C1 -/

/-- Counterexample to claim C1: a tick whose move detects self-collision
does not skip the food check.  With the apple at the grid center, the
reset snake has head on the apple, so the same tick increments the
length to 2 and relocates the apple — contradicting that a colliding
tick never increments the target length nor moves the food. -/
theorem C1_counterexample :
    ((handle_keys [] (Snake.mk 5 [(320, 240), (340, 240), (340, 260),
        (320, 260), (300, 260)] DOWN none none)).update_direction).moveCollides
      = true ∧
    tick [] UP [(0, 0)]
        ⟨Snake.mk 5 [(320, 240), (340, 240), (340, 260), (320, 260),
          (300, 260)] DOWN none none, (320, 240)⟩ =
      some ⟨Snake.mk 2 [(320, 240)] UP none none, (0, 0)⟩ := by
  decide

/-- Claim C1 as amended: the loop body never skips the food check; in a
colliding tick the check runs against the freshly reset snake, so the
tick leaves the target length at 1 and the apple in place exactly
when the apple is not at the grid center (when it is, the tick grows
the reset snake and relocates the apple, as the counterexample
shows). -/
theorem C1_collision_tick (g : GameState) (keys : List (Int × Int))
    (rd : Int × Int) (cands : List (Int × Int))
    (hc : ((handle_keys keys g.snake).update_direction).moveCollides = true)
    (ha : g.apple ≠ center) :
    tick keys rd cands g =
      some ⟨((handle_keys keys g.snake).update_direction).move rd, g.apple⟩ ∧
    (((handle_keys keys g.snake).update_direction).move rd).length = 1 := by
  have hmv : ((handle_keys keys g.snake).update_direction).move rd =
      ((handle_keys keys g.snake).update_direction).reset rd := by
    unfold Snake.move
    rw [hc]
    simp
  have hhd : (((handle_keys keys g.snake).update_direction).move
      rd).get_head_position = center := by
    rw [hmv]
    rfl
  constructor
  · unfold tick
    dsimp only
    rw [hhd, if_neg (fun hh => ha hh.symm)]
  · rw [hmv]
    rfl

/-- Witness for the amended C1: the colliding five-segment snake with
the apple away from the center; the tick only resets the snake. -/
theorem C1_collision_tick_witness :
    ((handle_keys [] (Snake.mk 5 [(320, 240), (340, 240), (340, 260),
        (320, 260), (300, 260)] DOWN none none)).update_direction).moveCollides
      = true ∧
    ((0 : Int), (0 : Int)) ≠ center ∧
    (tick [] UP []
        ⟨Snake.mk 5 [(320, 240), (340, 240), (340, 260), (320, 260),
          (300, 260)] DOWN none none, (0, 0)⟩ =
      some ⟨((handle_keys [] (Snake.mk 5 [(320, 240), (340, 240), (340, 260),
        (320, 260), (300, 260)] DOWN none none)).update_direction).move UP,
        (0, 0)⟩ ∧
    (((handle_keys [] (Snake.mk 5 [(320, 240), (340, 240), (340, 260),
        (320, 260), (300, 260)] DOWN none none)).update_direction).move
      UP).length = 1) :=
  ⟨by decide, by decide,
    C1_collision_tick ⟨Snake.mk 5 [(320, 240), (340, 240), (340, 260),
      (320, 260), (300, 260)] DOWN none none, (0, 0)⟩ [] UP []
      (by decide) (by decide)⟩

/- ### Claim C5 -/

/-- Claim C5: in every reachable game state, after the handled keys and
direction update of a tick, a move that does not detect self-collision
leaves the segment list with exactly target length cells. -/
theorem C5_length_matches_target (g : GameState) (keys : List (Int × Int))
    (rd : Int × Int) (h : Reachable g)
    (_hnc : ((handle_keys keys g.snake).update_direction).moveCollides = false) :
    (((handle_keys keys g.snake).update_direction).move rd).positions.length =
      (((handle_keys keys g.snake).update_direction).move rd).length := by
  obtain ⟨-, hle, hge⟩ := reachable_inv h
  have hk := handle_keys_positions keys g.snake
  have hu := update_direction_positions (handle_keys keys g.snake)
  apply move_length_eq
  · rw [hu.1, hk.1, hu.2, hk.2]
    exact hle
  · rw [hu.1, hk.1, hu.2, hk.2]
    exact hge

/-- Witness for C5 at the initial state with no input. -/
theorem C5_length_matches_target_witness :
    ((handle_keys [] (GameState.mk Snake.init (0, 0)).snake).update_direction).moveCollides
      = false ∧
    (((handle_keys [] (GameState.mk Snake.init (0, 0)).snake).update_direction).move
        UP).positions.length =
      (((handle_keys [] (GameState.mk Snake.init (0, 0)).snake).update_direction).move
        UP).length :=
  ⟨by decide, C5_length_matches_target ⟨Snake.init, (0, 0)⟩ [] UP
    (Reachable.start (0, 0)) (by decide)⟩

/- ### Claim C7 -/

/-- Claim C7: in a reachable game state, whenever the head equals the
apple position at the food check of a tick, that step increments the
target length by exactly one and moves the apple to a cell that is
neither on the snake nor equal to the old apple position. -/
theorem C7_eating_grows (g : GameState) (keys : List (Int × Int))
    (rd : Int × Int) (cands : List (Int × Int)) (g' : GameState)
    (h : Reachable g)
    (hhead : (((handle_keys keys g.snake).update_direction).move
      rd).get_head_position = g.apple)
    (htick : tick keys rd cands g = some g') :
    g'.snake.length =
      (((handle_keys keys g.snake).update_direction).move rd).length + 1 ∧
    g'.apple ∉
      (((handle_keys keys g.snake).update_direction).move rd).positions ∧
    g'.apple ≠ g.apple := by
  obtain ⟨hne, -, -⟩ := reachable_inv h
  have hk := handle_keys_positions keys g.snake
  have hu := update_direction_positions (handle_keys keys g.snake)
  set s0 := (handle_keys keys g.snake).update_direction with hs0
  have hne0 : s0.positions ≠ [] := by
    rw [hu.1, hk.1]
    exact hne
  unfold tick at htick
  rw [← hs0] at htick
  set m := s0.move rd with hm
  have hmne : m.positions ≠ [] := move_positions_ne_nil s0 rd hne0
  simp only [hhead, if_pos] at htick
  cases hfind : randomize_position cands m.positions with
  | none =>
    rw [hfind] at htick
    simp at htick
  | some p =>
    rw [hfind] at htick
    simp only [Option.some.injEq] at htick
    subst htick
    have hpnot : p ∉ m.positions := randomize_not_mem hfind
    refine ⟨rfl, hpnot, ?_⟩
    intro hpa
    have hpa2 : p = g.apple := hpa
    apply hpnot
    rw [hpa2, ← hhead]
    exact get_head_mem m hmne

/-- Witness for C7: the initial snake with the apple one cell to its
right; with no input the move lands the head on the apple, the tick
doubles nothing but adds one to the length and moves the apple to the
origin. -/
theorem C7_eating_grows_witness :
    (((handle_keys [] (GameState.mk Snake.init (340, 240)).snake).update_direction).move
        UP).get_head_position = (GameState.mk Snake.init (340, 240)).apple ∧
    tick [] UP [(0, 0)] (GameState.mk Snake.init (340, 240)) =
      some ⟨Snake.mk 2 [(340, 240)] RIGHT none (some (320, 240)), (0, 0)⟩ ∧
    ((GameState.mk (Snake.mk 2 [(340, 240)] RIGHT none (some (320, 240)))
        (0, 0)).snake.length =
      (((handle_keys [] (GameState.mk Snake.init (340, 240)).snake).update_direction).move
        UP).length + 1 ∧
    (GameState.mk (Snake.mk 2 [(340, 240)] RIGHT none (some (320, 240)))
        (0, 0)).apple ∉
      (((handle_keys [] (GameState.mk Snake.init (340, 240)).snake).update_direction).move
        UP).positions ∧
    (GameState.mk (Snake.mk 2 [(340, 240)] RIGHT none (some (320, 240)))
        (0, 0)).apple ≠ (GameState.mk Snake.init (340, 240)).apple) :=
  ⟨by decide, by decide,
    C7_eating_grows (GameState.mk Snake.init (340, 240)) [] UP [(0, 0)]
      ⟨Snake.mk 2 [(340, 240)] RIGHT none (some (320, 240)), (0, 0)⟩
      (Reachable.start (340, 240)) (by decide) (by decide)⟩

/- ### Claim C10 helper lemmas -/

theorem aligned_head (s : Snake) (hall : ∀ p ∈ s.positions, aligned p) :
    aligned s.get_head_position := by
  cases hps : s.positions with
  | nil =>
    unfold Snake.get_head_position
    rw [hps]
    decide
  | cons a l =>
    have hha : s.get_head_position = a := by
      unfold Snake.get_head_position
      rw [hps]
      rfl
    rw [hha]
    apply hall
    rw [hps]
    exact List.mem_cons_self a l

theorem aligned_new_head (s : Snake) (h : aligned s.get_head_position) :
    aligned s.new_head := by
  unfold aligned at h
  obtain ⟨hx, hy, -, -, -, -⟩ := h
  unfold aligned Snake.new_head wrapX wrapY
  dsimp only
  refine ⟨?_, ?_, ?_, ?_, ?_, ?_⟩
  · rw [Int.emod_emod_of_dvd _ (by norm_num [GRID_SIZE, SCREEN_WIDTH]),
      Int.add_mul_emod_self]
    exact hx
  · rw [Int.emod_emod_of_dvd _ (by norm_num [GRID_SIZE, SCREEN_HEIGHT]),
      Int.add_mul_emod_self]
    exact hy
  · exact Int.emod_nonneg _ (by norm_num [SCREEN_WIDTH])
  · exact Int.emod_lt_of_pos _ (by norm_num [SCREEN_WIDTH])
  · exact Int.emod_nonneg _ (by norm_num [SCREEN_HEIGHT])
  · exact Int.emod_lt_of_pos _ (by norm_num [SCREEN_HEIGHT])

/- ### Claim C10 -/

/-- Claim C10: every snake operation preserves the invariant that all
segment cells are grid-aligned (both pixel coordinates multiples of
GRID_SIZE) and on screen; initialization and reset establish it.  The
modulo keeps alignment because the screen dimensions are exact
multiples of the cell size. -/
theorem C10_grid_aligned :
    (∀ p ∈ Snake.init.positions, aligned p) ∧
    (∀ s : Snake, (∀ p ∈ s.positions, aligned p) →
      ∀ p ∈ s.update_direction.positions, aligned p) ∧
    (∀ (s : Snake) (rd : Int × Int), (∀ p ∈ s.positions, aligned p) →
      ∀ p ∈ (s.move rd).positions, aligned p) ∧
    (∀ (s : Snake) (rd : Int × Int), ∀ p ∈ (s.reset rd).positions, aligned p) := by
  have hcenter : aligned center := by decide
  refine ⟨?_, ?_, ?_, ?_⟩
  · intro p hp
    simp only [Snake.init, List.mem_singleton] at hp
    rw [hp]
    exact hcenter
  · intro s hall p hp
    rw [(update_direction_positions s).1] at hp
    exact hall p hp
  · intro s rd hall p hp
    have hnew : aligned s.new_head := aligned_new_head s (aligned_head s hall)
    by_cases hc : s.moveCollides = true
    · simp only [Snake.move, hc, if_pos, Snake.reset, List.mem_singleton] at hp
      rw [hp]
      exact hcenter
    · simp only [Snake.move, hc, if_neg, Bool.false_eq_true, not_false_iff] at hp
      by_cases hl : (s.new_head :: s.positions).length > s.length
      · simp only [hl, if_pos] at hp
        have hp2 : p ∈ s.new_head :: s.positions := List.mem_of_mem_dropLast hp
        rcases List.mem_cons.mp hp2 with hph | hpm
        · rw [hph]
          exact hnew
        · exact hall p hpm
      · simp only [hl, if_neg, not_false_iff] at hp
        rcases List.mem_cons.mp hp with hph | hpm
        · rw [hph]
          exact hnew
        · exact hall p hpm
  · intro s rd p hp
    simp only [Snake.reset, List.mem_singleton] at hp
    rw [hp]
    exact hcenter

/-- Witness for C10: the head cell after one move from the initial
state is aligned and on screen. -/
theorem C10_grid_aligned_witness : aligned (340, 240) :=
  C10_grid_aligned.2.2.1 Snake.init UP (by decide) (340, 240) (by decide)

end TheSnake
